import Mathlib

/-!
Shallow embedding of `app.py` (DataSense dashboard): the `load_data` file
loader, the `get_openai_api_key` credential lookup, the
`analyze_with_pandasai` query wrapper, and the response dispatcher inside
`main` that routes a query result to a rendering path by runtime type.

External collaborators (pandas readers, the PandasAI query engine, the
secret store) are passed in as function parameters; Python exceptions are
modelled with `Except`.
-/

namespace App

/-- Abstraction of a pandas DataFrame: only its shape is relevant here. -/
structure DataFrame where
  nrows : Nat
  ncols : Nat
deriving DecidableEq, Repr

/-- Runtime value returned by `smart_df.chat` and dispatched in `main`.
Python booleans are a distinct constructor because `bool` is a subclass of
`int`, which the `isinstance` test must reflect. -/
inductive PyValue where
  | dataFrame (df : DataFrame)
  | series (len : Nat)
  | boolVal (b : Bool)
  | intVal (n : Int)
  | floatVal (q : ℚ)
  | strVal (s : String)
  | pyNone
  | other (tag : String)
deriving DecidableEq, Repr

/-- Python `s.startswith(p)`: the first `len(p)` characters of `s` equal `p`. -/
def pyStartsWith (s p : String) : Bool :=
  p.data.isPrefixOf s.data

/-- Python `s.endswith(p)`: the last `len(p)` characters of `s` equal `p`
(case-sensitive, like Python). -/
def pyEndsWith (s p : String) : Bool :=
  p.data.isSuffixOf s.data

/-- The test `isinstance(response, (pd.DataFrame, pd.Series))` in `main`. -/
def isTabular : PyValue → Bool
  | .dataFrame _ => true
  | .series _ => true
  | _ => false

/-- The test `isinstance(response, (int, float))` in `main`; `True` and
`False` pass it because `bool` is a subclass of `int` in Python. -/
def isNumericScalar : PyValue → Bool
  | .boolVal _ => true
  | .intVal _ => true
  | .floatVal _ => true
  | _ => false

/-- The test `response is None` in `main`. -/
def isNone : PyValue → Bool
  | .pyNone => true
  | _ => false

/-- Nearest integer to `(a * 100) / d`, ties to even, as Python `.2f`
formatting rounds: the number of hundredths in the magnitude `a / d`. -/
def roundHundredthsNat (a d : Nat) : Nat :=
  let t := a * 100 / d
  let r := a * 100 % d
  if 2 * r < d then t
  else if d < 2 * r then t + 1
  else if t % 2 = 0 then t else t + 1

/-- Magnitude of a scalar `PyValue` in rounded hundredths (`True` counts as
1, `False` as 0, mirroring their integer values in Python). -/
def magHundredths : PyValue → Nat
  | .boolVal b => if b then 100 else 0
  | .intVal n => n.natAbs * 100
  | .floatVal q => roundHundredthsNat q.num.natAbs q.den
  | _ => 0

/-- Sign of a scalar `PyValue`: Python formatting prints the sign of the
value itself, even when the magnitude rounds to zero. -/
def isNegScalar : PyValue → Bool
  | .intVal n => n < 0
  | .floatVal q => q.num < 0
  | _ => false

/-- Insert a comma after every third character of a reversed digit list,
giving thousands grouping once the list is reversed back. -/
def commaGroupRev : List Char → List Char
  | [] => []
  | [a] => [a]
  | [a, b] => [a, b]
  | [a, b, c] => [a, b, c]
  | a :: b :: c :: rest => a :: b :: c :: ',' :: commaGroupRev rest

/-- Decimal digits of `n` with thousands separators, as Python `,d` grouping. -/
def commaSep (n : Nat) : String :=
  String.mk (commaGroupRev (Nat.repr n).data.reverse).reverse

/-- Exactly two decimal digits for the fractional part (`n < 100`). -/
def twoDigitString (n : Nat) : String :=
  (if n < 10 then "0" else "") ++ Nat.repr n

/-- Python format spec `,.2f` applied to a scalar value: sign, thousands
separators, a decimal point and exactly two fractional digits, rounding
ties to even. -/
def formatCommaTwo (v : PyValue) : String :=
  let h := magHundredths v
  (if isNegScalar v then "-" else "") ++ commaSep (h / 100) ++ "." ++ twoDigitString (h % 100)

/-- Rendering path chosen by the dispatcher in `main` (lines 513-530). -/
inductive RenderAction where
  | dataTable (v : PyValue)
  | numericCallout (text : String)
  | errorCallout (text : String)
  | textOutput (v : PyValue)
  | emptyNotice
deriving DecidableEq, Repr

/-- The response dispatcher in `main`: `if response is not None:` followed
by the `isinstance` chain, first match wins; the final `else` branch and
the non-matching strings both go to `st.info` (generic text output). -/
def dispatch (response : PyValue) : RenderAction :=
  if isNone response then RenderAction.emptyNotice
  else if isTabular response then RenderAction.dataTable response
  else if isNumericScalar response then
    RenderAction.numericCallout (formatCommaTwo response)
  else
    match response with
    | PyValue.strVal s =>
        if pyStartsWith s "Error:" then
          RenderAction.errorCallout ("**Analysis Error:** " ++ s)
        else RenderAction.textOutput (PyValue.strVal s)
    | v => RenderAction.textOutput v

/-- User-visible text produced by each rendering path in `main`. -/
def renderedText : RenderAction → String
  | RenderAction.dataTable _ => "**📋 Data Table:**"
  | RenderAction.numericCallout s =>
      "<div class=\"success-card\"> <h3>🎯 Result:</h3> <h1 style=\"text-align: center; margin: 20px 0; font-size: 3rem;\">"
        ++ s ++ "</h1> </div>"
  | RenderAction.errorCallout s => s
  | RenderAction.textOutput (PyValue.strVal s) => "**📝 Analysis Output:** " ++ s
  | RenderAction.textOutput _ => "**📝 Analysis Output:**"
  | RenderAction.emptyNotice =>
      "The analysis was completed but no specific output was returned."

/-- Configuration dict passed to `SmartDataframe` in `analyze_with_pandasai`. -/
structure EngineConfig where
  apiToken : String
  enableCache : Bool
deriving DecidableEq, Repr

/-- String returned by the `except ImportError` branch of
`analyze_with_pandasai`. -/
def importErrorMessage : String :=
  "Error: pandasai is not installed. Please install it using: pip install pandasai"

/-- The wrapper `analyze_with_pandasai(df, question, api_key)`. The imports
succeed iff `pandasai_available`; the engine (LLM construction,
`SmartDataframe`, `chat`) is the oracle `engine`, called with the config
built from the key and `enable_cache = False`; a raised exception is the
`Except.error` case, converted to the sentinel string. -/
def analyze_with_pandasai
    (pandasai_available : Bool)
    (engine : EngineConfig → DataFrame → String → Except String PyValue)
    (df : DataFrame) (question : String) (api_key : String) : PyValue :=
  if pandasai_available then
    match engine (EngineConfig.mk api_key false) df question with
    | Except.ok v => v
    | Except.error e => PyValue.strVal ("Error: " ++ e)
  else
    PyValue.strVal importErrorMessage

/-- Uploaded file handed to `load_data`: a name and raw content. -/
structure UploadedFile where
  name : String
  content : String
deriving DecidableEq, Repr

/-- Outcome of `load_data`: the returned value (`None` or a DataFrame) and
the message shown by `st.error`, if any. -/
structure LoadOutcome where
  result : Option DataFrame
  errorShown : Option String
deriving DecidableEq, Repr

/-- The function `load_data(uploaded_file)`: dispatch on the file name
suffix, with the pandas readers as oracles whose `Except.error` case models
a parse exception caught by the `except` clause. -/
def load_data
    (read_csv read_excel : UploadedFile → Except String DataFrame)
    (uploaded_file : UploadedFile) : LoadOutcome :=
  if pyEndsWith uploaded_file.name ".csv" then
    match read_csv uploaded_file with
    | Except.ok df => LoadOutcome.mk (some df) none
    | Except.error e => LoadOutcome.mk none (some ("Error loading file: " ++ e))
  else if pyEndsWith uploaded_file.name ".xlsx" || pyEndsWith uploaded_file.name ".xls" then
    match read_excel uploaded_file with
    | Except.ok df => LoadOutcome.mk (some df) none
    | Except.error e => LoadOutcome.mk none (some ("Error loading file: " ++ e))
  else
    LoadOutcome.mk none (some "Unsupported file format. Please upload CSV or Excel files.")

/-- The function `get_openai_api_key()`: the secret store entry wins,
otherwise the sidebar text input value is returned. -/
def get_openai_api_key (secrets : String → Option String) (sidebar_input : String) : String :=
  match secrets "OPENAI_API_KEY" with
  | some k => k
  | none => sidebar_input

/-- Observable outcome of one run of `main`: which sections were shown,
whether the query engine wrapper ran, and the rendering action chosen. -/
structure MainView where
  apiKeyInfoShown : Bool
  overviewShown : Bool
  visualizationsShown : Bool
  querySectionShown : Bool
  keyWarningShown : Bool
  engineInvoked : Bool
  rendered : Option RenderAction
deriving DecidableEq, Repr

/-- The function `main()`: credential lookup, upload handling via
`load_data`, the data overview and quick visualizations, the api-key gate
around the question form, and the dispatcher on the analysis response. -/
def main (secrets : String → Option String) (sidebar_input : String)
    (uploaded_file : Option UploadedFile)
    (read_csv read_excel : UploadedFile → Except String DataFrame)
    (pandasai_available : Bool)
    (engine : EngineConfig → DataFrame → String → Except String PyValue)
    (analyze_btn : Bool) (user_question : String) : MainView :=
  let api_key := get_openai_api_key secrets sidebar_input
  let noKeyCard := api_key == ""
  match uploaded_file with
  | none => MainView.mk noKeyCard false false false false false none
  | some f =>
    match (load_data read_csv read_excel f).result with
    | none => MainView.mk noKeyCard false false false false false none
    | some df =>
      if api_key == "" then
        MainView.mk noKeyCard true true false true false none
      else if analyze_btn && user_question != "" then
        MainView.mk noKeyCard true true true false pandasai_available
          (some (dispatch (analyze_with_pandasai pandasai_available engine df user_question api_key)))
      else
        MainView.mk noKeyCard true true true false false none

/-- Stub engine for concrete witnesses: always answers with a string. -/
def engineStub : EngineConfig → DataFrame → String → Except String PyValue :=
  fun _ _ _ => Except.ok (PyValue.strVal "42")

/-- Stub engine that raises with message "boom". -/
def engineRaises : EngineConfig → DataFrame → String → Except String PyValue :=
  fun _ _ _ => Except.error "boom"

/-- Stub reader that always succeeds with a 2 by 2 DataFrame. -/
def readOk : UploadedFile → Except String DataFrame :=
  fun _ => Except.ok (DataFrame.mk 2 2)

/-- Stub reader that always raises a parse error. -/
def readFail : UploadedFile → Except String DataFrame :=
  fun _ => Except.error "bad parse"

/-- Empty secret store for concrete witnesses. -/
def noSecrets : String → Option String :=
  fun _ => none

/-- Secret store holding the key, for concrete witnesses. -/
def secretsWithKey : String → Option String :=
  fun s => if s == "OPENAI_API_KEY" then some "sk-test" else none

/-- Stub engine whose answer depends on the cache flag. -/
def engineCacheSensitive : EngineConfig → DataFrame → String → Except String PyValue :=
  fun cfg _ _ =>
    if cfg.enableCache then Except.ok (PyValue.strVal "stale")
    else Except.ok (PyValue.strVal "fresh")

/-- Stub engine that always answers as the cache-off runs do. -/
def engineFresh : EngineConfig → DataFrame → String → Except String PyValue :=
  fun _ _ _ => Except.ok (PyValue.strVal "fresh")

/-- Any extension of the sentinel text by a suffix still carries the
sentinel as a character-level first segment. -/
theorem errorSentinel_pyStartsWith (msg : String) :
    pyStartsWith ("Error: " ++ msg) "Error:" = true := by
  have h : ("Error: " ++ msg).data = "Error:".data ++ (' ' :: msg.data) := by
    rw [String.data_append]
    rfl
  unfold pyStartsWith
  rw [h]
  exact List.isPrefixOf_iff_prefix.mpr (List.prefix_append _ _)

/-- Claim C1: the dispatcher classifies a non-null result by first match in
the fixed order: tabular values take the table path; otherwise numeric
scalars take the formatted numeric callout; otherwise a string with the
sentinel first segment takes the error callout; any other string, and any
remaining value, takes the generic text path; and a tabular value is never
routed to the scalar, error or text path. -/
theorem dispatch_classification_order (v : PyValue) (hv : isNone v = false) :
    (isTabular v = true → dispatch v = RenderAction.dataTable v) ∧
    (isTabular v = false → isNumericScalar v = true →
      dispatch v = RenderAction.numericCallout (formatCommaTwo v)) ∧
    (∀ s, v = PyValue.strVal s → pyStartsWith s "Error:" = true →
      dispatch v = RenderAction.errorCallout ("**Analysis Error:** " ++ s)) ∧
    (∀ s, v = PyValue.strVal s → pyStartsWith s "Error:" = false →
      dispatch v = RenderAction.textOutput v) ∧
    ((∀ s, v ≠ PyValue.strVal s) → isTabular v = false → isNumericScalar v = false →
      dispatch v = RenderAction.textOutput v) ∧
    (isTabular v = true →
      (∀ s, dispatch v ≠ RenderAction.numericCallout s) ∧
      (∀ s, dispatch v ≠ RenderAction.errorCallout s) ∧
      (∀ w, dispatch v ≠ RenderAction.textOutput w)) := by
  refine ⟨?_, ?_, ?_, ?_, ?_, ?_⟩
  · intro ht
    cases v <;> simp_all [dispatch, isNone, isTabular]
  · intro ht hn
    cases v <;> simp_all [dispatch, isNone, isTabular, isNumericScalar]
  · intro s hs he
    subst hs
    simp [dispatch, isNone, isTabular, isNumericScalar, he]
  · intro s hs he
    subst hs
    simp [dispatch, isNone, isTabular, isNumericScalar, he]
  · intro hns ht hn
    cases v <;> simp_all [dispatch, isNone, isTabular, isNumericScalar]
  · intro ht
    have hd : dispatch v = RenderAction.dataTable v := by
      cases v <;> simp_all [dispatch, isNone, isTabular]
    rw [hd]
    refine ⟨fun s => ?_, fun s => ?_, fun w => ?_⟩ <;> simp

/-- Witness for C1: a 3 by 2 DataFrame result takes the table path. -/
theorem dispatch_classification_order_witness :
    dispatch (PyValue.dataFrame (DataFrame.mk 3 2)) =
      RenderAction.dataTable (PyValue.dataFrame (DataFrame.mk 3 2)) :=
  (dispatch_classification_order (PyValue.dataFrame (DataFrame.mk 3 2)) (by decide)).1 (by decide)

/-- Claim C2: when the imports succeed and the Query Engine call raises,
`analyze_with_pandasai` catches the fault and returns the sentinel string
built from the exception text, and that value re-enters the dispatcher as
the error-string case; the fault never propagates. -/
theorem analyze_catches_engine_faults
    (engine : EngineConfig → DataFrame → String → Except String PyValue)
    (df : DataFrame) (question api_key msg : String)
    (h : engine (EngineConfig.mk api_key false) df question = Except.error msg) :
    analyze_with_pandasai true engine df question api_key =
      PyValue.strVal ("Error: " ++ msg) ∧
    dispatch (analyze_with_pandasai true engine df question api_key) =
      RenderAction.errorCallout ("**Analysis Error:** " ++ ("Error: " ++ msg)) := by
  have h1 : analyze_with_pandasai true engine df question api_key =
      PyValue.strVal ("Error: " ++ msg) := by
    simp [analyze_with_pandasai, h]
  refine ⟨h1, ?_⟩
  rw [h1]
  simp [dispatch, isNone, isTabular, isNumericScalar, errorSentinel_pyStartsWith]

/-- Witness for C2: an engine raising with message "boom". -/
theorem analyze_catches_engine_faults_witness :
    analyze_with_pandasai true engineRaises (DataFrame.mk 2 2) "q" "k" =
      PyValue.strVal ("Error: " ++ "boom") ∧
    dispatch (analyze_with_pandasai true engineRaises (DataFrame.mk 2 2) "q" "k") =
      RenderAction.errorCallout ("**Analysis Error:** " ++ ("Error: " ++ "boom")) :=
  analyze_catches_engine_faults engineRaises (DataFrame.mk 2 2) "q" "k" "boom" rfl

/-- Claim C3: every string result whose first characters are the sentinel
"Error:" is routed to the error-rendering path, whatever the rest of the
string is and wherever it came from. -/
theorem dispatch_error_prefixed_string (s : String)
    (h : pyStartsWith s "Error:" = true) :
    dispatch (PyValue.strVal s) =
      RenderAction.errorCallout ("**Analysis Error:** " ++ s) := by
  simp [dispatch, isNone, isTabular, isNumericScalar, h]

/-- Witness for C3: a legitimate answer coincidentally carrying the
sentinel is routed to the error callout all the same. -/
theorem dispatch_error_prefixed_string_witness :
    dispatch (PyValue.strVal "Error: revenue is up") =
      RenderAction.errorCallout ("**Analysis Error:** " ++ "Error: revenue is up") :=
  dispatch_error_prefixed_string "Error: revenue is up" (by decide)

/-- Claim C4: every numeric scalar result is rendered as the numeric
callout whose text contains the value formatted with thousands separators
and exactly two decimal places. -/
theorem numeric_scalar_rendering (v : PyValue) (h : isNumericScalar v = true) :
    dispatch v = RenderAction.numericCallout (formatCommaTwo v) ∧
    ∃ pre post, renderedText (dispatch v) = pre ++ formatCommaTwo v ++ post := by
  have h1 : dispatch v = RenderAction.numericCallout (formatCommaTwo v) := by
    cases v <;> simp_all [dispatch, isNone, isTabular, isNumericScalar]
  refine ⟨h1, ?_, ?_, ?_⟩
  · exact "<div class=\"success-card\"> <h3>🎯 Result:</h3> <h1 style=\"text-align: center; margin: 20px 0; font-size: 3rem;\">"
  · exact "</h1> </div>"
  · rw [h1]
    rfl

/-- Witness for C4: the input 1234.5 is displayed as 1,234.50. -/
theorem numeric_scalar_rendering_witness :
    formatCommaTwo (PyValue.floatVal (Rat.mk' 2469 2)) = "1,234.50" ∧
    (dispatch (PyValue.floatVal (Rat.mk' 2469 2)) =
        RenderAction.numericCallout (formatCommaTwo (PyValue.floatVal (Rat.mk' 2469 2))) ∧
      ∃ pre post, renderedText (dispatch (PyValue.floatVal (Rat.mk' 2469 2))) =
        pre ++ formatCommaTwo (PyValue.floatVal (Rat.mk' 2469 2)) ++ post) :=
  ⟨by decide, numeric_scalar_rendering (PyValue.floatVal (Rat.mk' 2469 2)) (by decide)⟩

/-- Claim C5: a file whose name matches none of the three suffixes is
rejected with the user-visible unsupported-format error and no DataFrame,
and a parse failure from either reader is caught, reported inline, and
yields no DataFrame instead of raising. -/
theorem load_data_rejects_and_catches
    (read_csv read_excel : UploadedFile → Except String DataFrame) (f : UploadedFile) :
    (pyEndsWith f.name ".csv" = false → pyEndsWith f.name ".xlsx" = false →
      pyEndsWith f.name ".xls" = false →
      load_data read_csv read_excel f =
        LoadOutcome.mk none (some "Unsupported file format. Please upload CSV or Excel files.")) ∧
    (∀ e, pyEndsWith f.name ".csv" = true → read_csv f = Except.error e →
      load_data read_csv read_excel f =
        LoadOutcome.mk none (some ("Error loading file: " ++ e))) ∧
    (∀ e, pyEndsWith f.name ".csv" = false →
      (pyEndsWith f.name ".xlsx" = true ∨ pyEndsWith f.name ".xls" = true) →
      read_excel f = Except.error e →
      load_data read_csv read_excel f =
        LoadOutcome.mk none (some ("Error loading file: " ++ e))) := by
  refine ⟨?_, ?_, ?_⟩
  · intro h1 h2 h3
    simp [load_data, h1, h2, h3]
  · intro e h1 h2
    simp [load_data, h1, h2]
  · intro e h1 h2 h3
    rcases h2 with h2 | h2 <;> simp [load_data, h1, h2, h3]

/-- Witness for C5: a .txt upload is rejected; a .csv upload whose read
raises is reported and returns no DataFrame. -/
theorem load_data_rejects_and_catches_witness :
    load_data readFail readOk (UploadedFile.mk "notes.txt" "x") =
      LoadOutcome.mk none (some "Unsupported file format. Please upload CSV or Excel files.") ∧
    load_data readFail readOk (UploadedFile.mk "a.csv" "x") =
      LoadOutcome.mk none (some ("Error loading file: " ++ "bad parse")) :=
  ⟨(load_data_rejects_and_catches readFail readOk (UploadedFile.mk "notes.txt" "x")).1
      (by decide) (by decide) (by decide),
    (load_data_rejects_and_catches readFail readOk (UploadedFile.mk "a.csv" "x")).2.1
      "bad parse" (by decide) rfl⟩

/-- Claim C6: a null result yields the empty-result notice and enters none
of the table, scalar, error or text rendering paths. -/
theorem dispatch_none_empty_notice :
    dispatch PyValue.pyNone = RenderAction.emptyNotice ∧
    renderedText (dispatch PyValue.pyNone) =
      "The analysis was completed but no specific output was returned." ∧
    (∀ v, dispatch PyValue.pyNone ≠ RenderAction.dataTable v) ∧
    (∀ s, dispatch PyValue.pyNone ≠ RenderAction.numericCallout s) ∧
    (∀ s, dispatch PyValue.pyNone ≠ RenderAction.errorCallout s) ∧
    (∀ v, dispatch PyValue.pyNone ≠ RenderAction.textOutput v) := by
  have h : dispatch PyValue.pyNone = RenderAction.emptyNotice := rfl
  refine ⟨h, rfl, ?_, ?_, ?_, ?_⟩ <;> intro x <;> rw [h] <;> simp

/-- Claim C7: the secret store entry wins over the sidebar field; when the
resulting key is empty the query section is disabled and the engine is
never invoked, while a successfully loaded upload still gets its overview
and visualizations. -/
theorem api_key_priority_and_gating
    (secrets : String → Option String) (sidebar_input : String)
    (uploaded_file : Option UploadedFile)
    (read_csv read_excel : UploadedFile → Except String DataFrame)
    (avail : Bool) (engine : EngineConfig → DataFrame → String → Except String PyValue)
    (analyze_btn : Bool) (user_question : String) :
    (∀ k, secrets "OPENAI_API_KEY" = some k →
      get_openai_api_key secrets sidebar_input = k) ∧
    (secrets "OPENAI_API_KEY" = none →
      get_openai_api_key secrets sidebar_input = sidebar_input) ∧
    (get_openai_api_key secrets sidebar_input = "" →
      (main secrets sidebar_input uploaded_file read_csv read_excel avail engine
          analyze_btn user_question).engineInvoked = false ∧
      (main secrets sidebar_input uploaded_file read_csv read_excel avail engine
          analyze_btn user_question).querySectionShown = false ∧
      (main secrets sidebar_input uploaded_file read_csv read_excel avail engine
          analyze_btn user_question).rendered = none ∧
      (∀ f df, uploaded_file = some f →
        (load_data read_csv read_excel f).result = some df →
        (main secrets sidebar_input uploaded_file read_csv read_excel avail engine
            analyze_btn user_question).overviewShown = true ∧
        (main secrets sidebar_input uploaded_file read_csv read_excel avail engine
            analyze_btn user_question).visualizationsShown = true)) := by
  refine ⟨?_, ?_, ?_⟩
  · intro k hk
    simp [get_openai_api_key, hk]
  · intro hk
    simp [get_openai_api_key, hk]
  · intro hk
    cases huf : uploaded_file with
    | none =>
        refine ⟨?_, ?_, ?_, ?_⟩ <;> simp [main, huf]
    | some f =>
        cases hlr : (load_data read_csv read_excel f).result with
        | none =>
            refine ⟨?_, ?_, ?_, ?_⟩ <;> simp_all [main]
        | some df =>
            refine ⟨?_, ?_, ?_, ?_⟩ <;> simp_all [main]

/-- Witness for C7: the secret store wins; with no secret the sidebar
value is used; with an empty key and a loaded csv, the engine never runs,
the query section is hidden, and the overview is still shown. -/
theorem api_key_priority_and_gating_witness :
    get_openai_api_key secretsWithKey "side" = "sk-test" ∧
    get_openai_api_key noSecrets "side" = "side" ∧
    (main noSecrets "" (some (UploadedFile.mk "a.csv" "x")) readOk readOk true
        engineStub true "q").engineInvoked = false ∧
    (main noSecrets "" (some (UploadedFile.mk "a.csv" "x")) readOk readOk true
        engineStub true "q").querySectionShown = false ∧
    (main noSecrets "" (some (UploadedFile.mk "a.csv" "x")) readOk readOk true
        engineStub true "q").overviewShown = true :=
  ⟨(api_key_priority_and_gating secretsWithKey "side" none readOk readOk true
      engineStub true "q").1 "sk-test" rfl,
    (api_key_priority_and_gating noSecrets "side" none readOk readOk true
      engineStub true "q").2.1 rfl,
    ((api_key_priority_and_gating noSecrets "" (some (UploadedFile.mk "a.csv" "x"))
      readOk readOk true engineStub true "q").2.2 rfl).1,
    ((api_key_priority_and_gating noSecrets "" (some (UploadedFile.mk "a.csv" "x"))
      readOk readOk true engineStub true "q").2.2 rfl).2.1,
    (((api_key_priority_and_gating noSecrets "" (some (UploadedFile.mk "a.csv" "x"))
      readOk readOk true engineStub true "q").2.2 rfl).2.2.2 (UploadedFile.mk "a.csv" "x")
      (DataFrame.mk 2 2) rfl rfl).1⟩

/-- Claim C8: the wrapper only ever consults the engine at configurations
with the cache flag off, so two engines agreeing on all cache-off
configurations are indistinguishable through `analyze_with_pandasai`. -/
theorem engine_cache_always_disabled
    (avail : Bool) (e1 e2 : EngineConfig → DataFrame → String → Except String PyValue)
    (df : DataFrame) (question api_key : String)
    (h : ∀ cfg d q, cfg.enableCache = false → e1 cfg d q = e2 cfg d q) :
    analyze_with_pandasai avail e1 df question api_key =
      analyze_with_pandasai avail e2 df question api_key := by
  unfold analyze_with_pandasai
  cases avail with
  | false => simp
  | true => rw [h (EngineConfig.mk api_key false) df question rfl]

/-- Witness for C8: an engine that would answer differently from cache
still behaves like the cache-off engine through the wrapper. -/
theorem engine_cache_always_disabled_witness :
    analyze_with_pandasai true engineCacheSensitive (DataFrame.mk 2 2) "q" "k" =
      analyze_with_pandasai true engineFresh (DataFrame.mk 2 2) "q" "k" :=
  engine_cache_always_disabled true engineCacheSensitive engineFresh (DataFrame.mk 2 2)
    "q" "k" (fun cfg d q hc => by simp [engineCacheSensitive, engineFresh, hc])

/-- Claim C9: booleans pass the numeric-scalar runtime type test, so True
renders as the numeric callout 1.00 and False as 0.00, never as a text
answer. -/
theorem bool_dispatches_as_numeric :
    dispatch (PyValue.boolVal true) = RenderAction.numericCallout "1.00" ∧
    dispatch (PyValue.boolVal false) = RenderAction.numericCallout "0.00" ∧
    isNumericScalar (PyValue.boolVal true) = true ∧
    isNumericScalar (PyValue.boolVal false) = true ∧
    (∀ v, dispatch (PyValue.boolVal true) ≠ RenderAction.textOutput v) ∧
    (∀ v, dispatch (PyValue.boolVal false) ≠ RenderAction.textOutput v) := by
  have h1 : dispatch (PyValue.boolVal true) = RenderAction.numericCallout "1.00" := by decide
  have h2 : dispatch (PyValue.boolVal false) = RenderAction.numericCallout "0.00" := by decide
  refine ⟨h1, h2, rfl, rfl, ?_, ?_⟩ <;> intro v
  · rw [h1]; simp
  · rw [h2]; simp

/-- Claim C10: the suffix test is a case-sensitive match against the exact
lowercase suffixes, so a load succeeds only for such names, and a file
named DATA.CSV is rejected as unsupported. -/
theorem load_data_suffix_case_sensitive
    (read_csv read_excel : UploadedFile → Except String DataFrame) (f : UploadedFile) :
    ((load_data read_csv read_excel f).result ≠ none →
      (pyEndsWith f.name ".csv" = true ∨ pyEndsWith f.name ".xlsx" = true ∨
        pyEndsWith f.name ".xls" = true)) ∧
    (pyEndsWith f.name ".csv" = false → pyEndsWith f.name ".xlsx" = false →
      pyEndsWith f.name ".xls" = false →
      load_data read_csv read_excel f =
        LoadOutcome.mk none (some "Unsupported file format. Please upload CSV or Excel files.")) := by
  constructor
  · intro hres
    by_contra hcon
    push_neg at hcon
    obtain ⟨h1, h2, h3⟩ := hcon
    simp only [Bool.not_eq_true] at h1 h2 h3
    simp [load_data, h1, h2, h3] at hres
  · intro h1 h2 h3
    simp [load_data, h1, h2, h3]

/-- Witness for C10: DATA.CSV is rejected; a.csv with a succeeding reader
loads and indeed matches a lowercase suffix. -/
theorem load_data_suffix_case_sensitive_witness :
    load_data readOk readOk (UploadedFile.mk "DATA.CSV" "x") =
      LoadOutcome.mk none (some "Unsupported file format. Please upload CSV or Excel files.") ∧
    (pyEndsWith "a.csv" ".csv" = true ∨ pyEndsWith "a.csv" ".xlsx" = true ∨
      pyEndsWith "a.csv" ".xls" = true) :=
  ⟨(load_data_suffix_case_sensitive readOk readOk (UploadedFile.mk "DATA.CSV" "x")).2
      (by decide) (by decide) (by decide),
    (load_data_suffix_case_sensitive readOk readOk (UploadedFile.mk "a.csv" "x")).1
      (by decide)⟩

end App
